import Mathlib

/-!
Shallow embedding of the normalization and orchestration core of
`tx-data-submitter` (`src/app/page.tsx`), together with proofs about it.

The embedded functions mirror the TypeScript source:
 * `normalizeTransactionData` (page.tsx lines 141-195),
 * the required-field validation inside `parseJsonData` (lines 207-223),
 * `executeTransactions` (lines 225-288), with the external chain-switch and
   send-and-confirm collaborators supplied as outcome parameters,
 * `formatAmount` (lines 290-303), including the IEEE-754 double rounding
   performed by the JavaScript expression `10 ** decimals`.

JavaScript runtime values parsed from JSON are modelled by `JsValue`; JS
property access, truthiness, `parseInt`, `BigInt` conversion and string
coercion are embedded by the functions below.  Numeric JSON literals are
modelled as integers (every numeric field the program reads is an integer;
non-integer doubles never appear in the claims or the data model).
-/

set_option autoImplicit false

namespace TxSubmitter

/-- Runtime JavaScript value as produced by `JSON.parse`, extended with
`undefined` (the result of reading an absent property) and `NaN` (the result
of a failed `parseInt`). -/
inductive JsValue where
  | vNull
  | vUndefined
  | vNaN
  | vBool (b : Bool)
  | vNum (n : Int)
  | vStr (s : String)
  | vArr (elems : List JsValue)
  | vObj (fields : List (String × JsValue))

/-- Numeric value of a list of decimal digit characters. -/
def digitsVal (cs : List Char) : Nat :=
  cs.foldl (fun acc c => acc * 10 + (c.toNat - '0'.toNat)) 0

/-- Whether `k` is the canonical decimal form of an array index below `len`
(no sign, no leading zero except `"0"` itself). -/
def isCanonicalIndexLt (k : String) (len : Nat) : Bool :=
  match k.data with
  | [] => false
  | cs =>
      cs.all Char.isDigit &&
      (match cs with
       | '0' :: _ :: _ => false
       | _ => true) &&
      digitsVal cs < len

namespace JsValue

/-- JS truthiness: `null`, `undefined`, `NaN`, `false`, `0` and `""` are
falsy; every object and array is truthy. -/
def truthy : JsValue → Bool
  | vNull => false
  | vUndefined => false
  | vNaN => false
  | vBool b => b
  | vNum n => n ≠ 0
  | vStr s => s ≠ ""
  | vArr _ => true
  | vObj _ => true

/-- The guard `typeof data === 'object' && data !== null`: true exactly for
objects and arrays among JSON-parse results. -/
def isObjectLike : JsValue → Bool
  | vObj _ => true
  | vArr _ => true
  | _ => false

/-- First-match lookup in an object's field list; an absent key reads as
`undefined`, as in JS. -/
def lookupField : List (String × JsValue) → String → JsValue
  | [], _ => vUndefined
  | (k', v) :: rest, k => if k' = k then v else lookupField rest k

/-- The JS `in` operator, restricted to the shapes this program tests.
Arrays answer `true` only for `length` and in-range canonical indices; the
program only ever tests the keys `result`, `tx` and `quote`. -/
def hasKey : JsValue → String → Bool
  | vObj fields, k => fields.any (fun p => p.1 = k)
  | vArr xs, k => (k = "length") || isCanonicalIndexLt k xs.length
  | _, _ => false

end JsValue

/-- Decimal digit character. -/
def digitChar (n : Nat) : Char :=
  if n = 0 then '0' else if n = 1 then '1' else if n = 2 then '2'
  else if n = 3 then '3' else if n = 4 then '4' else if n = 5 then '5'
  else if n = 6 then '6' else if n = 7 then '7' else if n = 8 then '8' else '9'

/-- Fuel-driven accumulator for decimal digits; `fuel = n + 1` always
suffices since the digit count of `n` is at most `n + 1`. -/
def natDigitsAux : Nat → Nat → List Char → List Char
  | 0, _, acc => acc
  | f + 1, n, acc =>
      if n < 10 then digitChar n :: acc
      else natDigitsAux f (n / 10) (digitChar (n % 10) :: acc)

/-- Decimal string of a natural number, as produced by `BigInt.toString` and
JS `String(n)` for integral `n`. -/
def natDecimal (n : Nat) : String := String.mk (natDigitsAux (n + 1) n [])

/-- Decimal string of an integer (JS `toString` on a BigInt or integral
number). -/
def intDecimal : Int → String
  | Int.ofNat n => natDecimal n
  | Int.negSucc n => "-" ++ natDecimal (n + 1)

/-- Whitespace recognised by `parseInt` / `BigInt` string trimming. -/
def isWsChar (c : Char) : Bool :=
  c = ' ' || c = '\t' || c = '\n' || c = '\r'

/-- JS `parseInt(s, 10)`: skip leading whitespace, read an optional sign and
then the longest prefix of decimal digits; `none` models `NaN` (no digits at
all). -/
def parseIntBase10 (s : String) : Option Int :=
  let cs := s.data.dropWhile isWsChar
  let signed : Int × List Char :=
    match cs with
    | '-' :: rest => (-1, rest)
    | '+' :: rest => (1, rest)
    | _ => (1, cs)
  let digits := signed.2.takeWhile Char.isDigit
  if digits.isEmpty then none
  else some (signed.1 * (digitsVal digits : Int))

/-- Comma-joined rendering used by `Array.prototype.toString`. -/
def commaJoin : List String → String
  | [] => ""
  | [s] => s
  | s :: rest => s ++ "," ++ commaJoin rest

/-- JS `ToString` on a runtime value, with a recursion-depth budget for
nested arrays (any actual `JSON.parse` result has small finite depth, so the
budget is never exhausted on real inputs).  Numbers print in plain decimal;
the exponential notation JS uses beyond `1e21` is outside the integer ranges
any claim touches. -/
def jsToStringFuel : Nat → JsValue → String
  | _, .vNull => "null"
  | _, .vUndefined => "undefined"
  | _, .vNaN => "NaN"
  | _, .vBool b => if b then "true" else "false"
  | _, .vNum n => intDecimal n
  | _, .vStr s => s
  | _, .vObj _ => "[object Object]"
  | 0, .vArr _ => ""
  | f + 1, .vArr xs =>
      commaJoin (xs.map (fun x =>
        match x with
        | .vNull => ""
        | .vUndefined => ""
        | y => jsToStringFuel f y))

/-- JS `ToString` of a runtime value. -/
def jsToString (v : JsValue) : String := jsToStringFuel 1000000 v

/-- The value of the JS expression `parseInt(v, 10)`: the argument is
string-coerced, then parsed; failure yields `NaN`. -/
def jsParseIntValue (v : JsValue) : JsValue :=
  match parseIntBase10 (jsToString v) with
  | some n => .vNum n
  | none => .vNaN

/-- JS `a || b` on runtime values. -/
def jsOr (a b : JsValue) : JsValue := if a.truthy then a else b

/-- Errors thrown (or, for `invalidChainId`, named by the specification's
error taxonomy but never thrown by the code) on the parse/normalize path. -/
inductive ThrownError where
  /-- Host `TypeError` from a property access on `null`/`undefined`. -/
  | typeError
  /-- `Error("Unrecognized JSON format")`. -/
  | unrecognizedFormat
  /-- `Error("Invalid transaction data: missing required fields")`. -/
  | missingRequiredFields
  /-- The specification's `InvalidChainId` category; the source never
  constructs this error, which is what the claims about it are probing. -/
  | invalidChainId
deriving DecidableEq

/-- Message of a thrown error, as interpolated into the UI error string.
The exact host text of a `TypeError` is engine specific; no claim depends
on it, so a fixed representative is used. -/
def errMessage : ThrownError → String
  | .typeError => "Cannot read properties of null"
  | .unrecognizedFormat => "Unrecognized JSON format"
  | .missingRequiredFields => "Invalid transaction data: missing required fields"
  | .invalidChainId => "Invalid chain id"

/-- JS property access `v.k`: throws `TypeError` on `null`/`undefined`,
reads `undefined` for an absent key, and autoboxes primitives (whose only
relevant own property is `length` on strings). -/
def getProp : JsValue → String → Except ThrownError JsValue
  | .vNull, _ => .error .typeError
  | .vUndefined, _ => .error .typeError
  | .vObj fields, k => .ok (JsValue.lookupField fields k)
  | .vArr xs, k => .ok (if k = "length" then .vNum xs.length else .vUndefined)
  | .vStr s, k => .ok (if k = "length" then .vNum s.length else .vUndefined)
  | _, _ => .ok .vUndefined

/-- Total property read (used only where the source has already established
that the receiver is not `null`/`undefined`). -/
def fieldOf (v : JsValue) (k : String) : JsValue :=
  match getProp v k with
  | .ok w => w
  | .error _ => .vUndefined

/-- Canonical normalized record.  The source performs no runtime validation
of the extracted values (the `as` casts are static-only), so every field is
a raw runtime value; `approveTx` and `warning` hold `undefined` when
absent, exactly as the constructed JS object does. -/
structure Normalized where
  tx : JsValue
  quote : JsValue
  approveTx : JsValue
  chainId : JsValue
  warning : JsValue

/-- Embedding of `normalizeTransactionData` (page.tsx lines 141-195).
Detection first tests for Format A (`result` key present), then Format B
(`tx` and `quote` keys present), and otherwise throws
`Error("Unrecognized JSON format")`.  Property reads happen in the source's
evaluation order. -/
def normalizeTransactionData (data : JsValue) : Except ThrownError Normalized :=
  if data.isObjectLike && data.hasKey "result" then
    -- Format 1: result wrapper with camelCase
    do
      let res ← getProp data "result"
      let tx ← getProp res "tx"
      let quote ← getProp res "quote"
      let approveTx ← getProp res "approveTx"
      let chainId ← getProp res "chainId"
      let warning ← getProp data "warning"
      pure { tx := tx, quote := quote, approveTx := approveTx,
               chainId := chainId, warning := warning }
  else if data.isObjectLike && data.hasKey "tx" && data.hasKey "quote" then
    -- Format 2: flat structure with snake_case
    do
      let txv ← getProp data "tx"
      let quotev ← getProp data "quote"
      let txData ← getProp txv "data"
      let txGas ← getProp txv "gas"
      let txGasPrice ← getProp txv "gas_price"
      let txFrom ← getProp txv "from"
      let txTo ← getProp txv "to"
      let txValue ← getProp txv "value"
      let fromAsset ← getProp quotev "from_asset"
      let faName ← getProp fromAsset "name"
      let faCurrency ← getProp fromAsset "currency_code"
      let faAddress ← getProp fromAsset "address"
      let faDecimals ← getProp fromAsset "decimals"
      let toAsset ← getProp quotev "to_asset"
      let taName ← getProp toAsset "name"
      let taCurrency ← getProp toAsset "currency_code"
      let taAddress ← getProp toAsset "address"
      let taDecimals ← getProp toAsset "decimals"
      let fromAmount ← getProp quotev "from_amount"
      let toAmount ← getProp quotev "to_amount"
      let approveRaw ← getProp data "approve_tx"
      let approveTx ←
        if approveRaw.truthy then do
          let aData ← getProp approveRaw "data"
          let aGas ← getProp approveRaw "gas"
          let aGasPrice ← getProp approveRaw "gas_price"
          let aFrom ← getProp approveRaw "from"
          let aTo ← getProp approveRaw "to"
          pure (JsValue.vObj [("data", aData), ("gas", aGas),
            ("gasPrice", aGasPrice), ("from", aFrom), ("to", aTo)])
        else
          pure JsValue.vUndefined
      let chainIdRaw ← getProp quotev "chain_id"
      pure {
        tx := JsValue.vObj [("data", txData), ("gas", txGas),
          ("gasPrice", txGasPrice), ("from", txFrom), ("to", txTo),
          ("value", jsOr txValue (.vStr "0"))],
        quote := JsValue.vObj [
          ("fromAsset", JsValue.vObj [("name", faName),
            ("currencyCode", faCurrency), ("address", faAddress),
            ("decimals", faDecimals)]),
          ("toAsset", JsValue.vObj [("name", taName),
            ("currencyCode", taCurrency), ("address", taAddress),
            ("decimals", taDecimals)]),
          ("fromAmount", fromAmount), ("toAmount", toAmount)],
        approveTx := approveTx,
        chainId := jsParseIntValue chainIdRaw,
        warning := JsValue.vUndefined }
  else
    .error .unrecognizedFormat

/-- The normalize-plus-validate pipeline inside `parseJsonData` (lines
211-216): after normalization, `if (!data.tx || !data.chainId)` throws the
missing-required-fields error. -/
def parseNormalizePipeline (raw : JsValue) : Except ThrownError Normalized := do
  let d ← normalizeTransactionData raw
  if !d.tx.truthy || !d.chainId.truthy then
    .error .missingRequiredFields
  else
    pure d

/-! ### Typed views of the two source formats

These structures transcribe the TypeScript interfaces
`SwapServiceHttpTxData` (Format A, lines 55-99) and `SwapServiceGrpcTxData`
(Format B, lines 102-139), and `encodeA`/`encodeB` inject them into the
runtime-value world the way `JSON.parse` would (optional fields present
exactly when `some`). -/

/-- Format A ("wrapped/camelCase").  Detection and extraction only ever
read `result.tx`, `result.quote`, `result.approveTx`, `result.chainId` and
the sibling `warning`, and pass the values through untouched, so the typed
view keeps them as arbitrary runtime values. -/
structure FormatA where
  tx : JsValue
  quote : JsValue
  approveTx : Option JsValue
  chainId : JsValue
  warning : Option JsValue

/-- JSON object produced for a Format A input. -/
def encodeA (a : FormatA) : JsValue :=
  .vObj ([("result", .vObj ([("tx", a.tx), ("quote", a.quote)] ++
      (match a.approveTx with
       | some v => [("approveTx", v)]
       | none => []) ++
      [("chainId", a.chainId)]))] ++
    (match a.warning with
     | some w => [("warning", w)]
     | none => []))

/-- Asset sub-object of Format B's quote (interface lines 112-123). -/
structure AssetB where
  name : String
  currency_code : String
  address : String
  decimals : Int

/-- Format B transaction sub-object (interface lines 103-110);
`value` is optional. -/
structure TxB where
  data : String
  gas : String
  gas_price : String
  «from» : String
  «to» : String
  value : Option String

/-- Format B approval sub-object (interface lines 128-134); no `value`. -/
structure ApproveTxB where
  data : String
  gas : String
  gas_price : String
  «from» : String
  «to» : String

/-- Format B quote (interface lines 111-127); `chain_id` is a string. -/
structure QuoteB where
  from_asset : AssetB
  to_asset : AssetB
  from_amount : String
  to_amount : String
  chain_id : String

/-- Format B ("flat/snake_case") top level (interface lines 102-139);
`approve_tx` and `fee` are optional. -/
structure FormatB where
  tx : TxB
  quote : QuoteB
  approve_tx : Option ApproveTxB
  fee : Option (String × String)

/-- JSON object for a Format B asset. -/
def encodeAssetB (a : AssetB) : JsValue :=
  .vObj [("name", .vStr a.name), ("currency_code", .vStr a.currency_code),
    ("address", .vStr a.address), ("decimals", .vNum a.decimals)]

/-- JSON value of an optional string field. -/
def encodeOptStr : Option String → JsValue
  | some s => .vStr s
  | none => .vUndefined

/-- JSON object for a Format B `tx`; the `value` key is present exactly
when the field is. -/
def encodeTxB (t : TxB) : JsValue :=
  .vObj ([("data", .vStr t.data), ("gas", .vStr t.gas),
    ("gas_price", .vStr t.gas_price), ("from", .vStr t.«from»),
    ("to", .vStr t.«to»)] ++
    (match t.value with
     | some s => [("value", .vStr s)]
     | none => []))

/-- JSON object for a Format B `approve_tx`. -/
def encodeApproveTxB (t : ApproveTxB) : JsValue :=
  .vObj [("data", .vStr t.data), ("gas", .vStr t.gas),
    ("gas_price", .vStr t.gas_price), ("from", .vStr t.«from»),
    ("to", .vStr t.«to»)]

/-- JSON object for a Format B `quote`. -/
def encodeQuoteB (q : QuoteB) : JsValue :=
  .vObj [("from_asset", encodeAssetB q.from_asset),
    ("to_asset", encodeAssetB q.to_asset),
    ("from_amount", .vStr q.from_amount), ("to_amount", .vStr q.to_amount),
    ("chain_id", .vStr q.chain_id)]

/-- JSON object produced for a Format B input. -/
def encodeB (b : FormatB) : JsValue :=
  .vObj ([("tx", encodeTxB b.tx), ("quote", encodeQuoteB b.quote)] ++
    (match b.approve_tx with
     | some t => [("approve_tx", encodeApproveTxB t)]
     | none => []) ++
    (match b.fee with
     | some f => [("fee", .vObj [("amount", .vStr f.1),
         ("percentage", .vStr f.2)])]
     | none => []))

/-- The canonical record `normalizeTransactionData` produces for a Format B
input, written out field by field (used to state the renaming claims). -/
def formatBNormalized (b : FormatB) : Normalized where
  tx := .vObj [("data", .vStr b.tx.data), ("gas", .vStr b.tx.gas),
    ("gasPrice", .vStr b.tx.gas_price), ("from", .vStr b.tx.«from»),
    ("to", .vStr b.tx.«to»),
    ("value", jsOr (encodeOptStr b.tx.value) (.vStr "0"))]
  quote := .vObj [
    ("fromAsset", .vObj [("name", .vStr b.quote.from_asset.name),
      ("currencyCode", .vStr b.quote.from_asset.currency_code),
      ("address", .vStr b.quote.from_asset.address),
      ("decimals", .vNum b.quote.from_asset.decimals)]),
    ("toAsset", .vObj [("name", .vStr b.quote.to_asset.name),
      ("currencyCode", .vStr b.quote.to_asset.currency_code),
      ("address", .vStr b.quote.to_asset.address),
      ("decimals", .vNum b.quote.to_asset.decimals)]),
    ("fromAmount", .vStr b.quote.from_amount),
    ("toAmount", .vStr b.quote.to_amount)]
  approveTx :=
    match b.approve_tx with
    | some t => .vObj [("data", .vStr t.data), ("gas", .vStr t.gas),
        ("gasPrice", .vStr t.gas_price), ("from", .vStr t.«from»),
        ("to", .vStr t.«to»)]
    | none => .vUndefined
  chainId := jsParseIntValue (.vStr b.quote.chain_id)
  warning := .vUndefined

/-- Normalized `tx.value` in the specification's vocabulary: defaulted to
`"0"` when the source `value` is omitted — and also, as the code's `||`
actually behaves, when it is the (falsy) empty string. -/
def valueB : Option String → String
  | none => "0"
  | some s => if s = "" then "0" else s

/-! ### Component state and `parseJsonData` -/

/-- The React component state touched by `parseJsonData` (lines 198-202). -/
structure UiState where
  jsonInput : String
  parsedData : Option Normalized
  isExecuting : Bool
  txStatus : String
  error : String

/-- Embedding of `parseJsonData` (lines 207-223).  `JSON.parse` is a host
builtin; its outcome on `st.jsonInput` is passed in as `jsonParseResult`
(`Except.error m` models a thrown `SyntaxError` with message `m`).  The
handler sets `error` to the interpolated message and clears `parsedData`;
no other state field is written. -/
def parseJsonData (st : UiState) (jsonParseResult : Except String JsValue) :
    UiState :=
  let st0 : UiState := { st with error := "" }
  match jsonParseResult with
  | .error m =>
      { st0 with error := "Failed to parse JSON: " ++ m, parsedData := none }
  | .ok raw =>
      match parseNormalizePipeline raw with
      | .error e =>
          { st0 with error := "Failed to parse JSON: " ++ errMessage e,
                     parsedData := none }
      | .ok d => { st0 with parsedData := some d }

/-- Whether a parse attempt ends in the `catch` branch (malformed JSON, a
normalization error, or the required-field check failing). -/
def parseAttemptFails (jsonParseResult : Except String JsValue) : Bool :=
  match jsonParseResult with
  | .error _ => true
  | .ok raw =>
      match parseNormalizePipeline raw with
      | .error _ => true
      | .ok _ => false

/-! ### The transaction orchestrator -/

/-- Connected wallet account (an external handle; only its presence
matters to the orchestrator). -/
structure Account where
  address : String

/-- JS `BigInt(string)`: trim whitespace, accept the empty string as `0`,
otherwise an optional sign followed by decimal digits.  (The `0x`/`0o`/`0b`
literal prefixes of `StringToBigInt` are not modelled; no claim reaches
them.)  `none` models a thrown `SyntaxError`. -/
def jsBigIntOfString (s : String) : Option Int :=
  let cs := ((s.data.dropWhile isWsChar).reverse.dropWhile isWsChar).reverse
  match cs with
  | [] => some 0
  | '-' :: rest =>
      if !rest.isEmpty && rest.all Char.isDigit
      then some (-(digitsVal rest : Int)) else none
  | '+' :: rest =>
      if !rest.isEmpty && rest.all Char.isDigit
      then some (digitsVal rest : Int) else none
  | _ =>
      if cs.all Char.isDigit then some (digitsVal cs : Int) else none

/-- JS `BigInt(v)` on a runtime value; `none` models a throw
(`TypeError` on `null`/`undefined`, `RangeError` on `NaN`,
`SyntaxError` on a malformed string). -/
def jsBigIntValue? : JsValue → Option Int
  | .vNum n => some n
  | .vNaN => none
  | .vBool b => some (if b then 1 else 0)
  | .vNull => none
  | .vUndefined => none
  | .vStr s => jsBigIntOfString s
  | v => jsBigIntOfString (jsToString v)

/-- Argument record built by `prepareTransaction` from a normalized
sub-object (`client`/`chain` are external handles and omitted). -/
structure BuiltTx where
  «to» : JsValue
  data : JsValue
  gas : Int
  gasPrice : Int
  value : Option Int

/-- Building the approval transaction (lines 245-252): reads `to`, `data`
and converts `gas`/`gasPrice` with `BigInt`; `none` models a throw during
building. -/
def buildApproveTx (v : JsValue) : Option BuiltTx := do
  let tov ← (getProp v "to").toOption
  let datv ← (getProp v "data").toOption
  let gasv ← (getProp v "gas").toOption
  let gas ← jsBigIntValue? gasv
  let gpv ← (getProp v "gasPrice").toOption
  let gasPrice ← jsBigIntValue? gpv
  pure { «to» := tov, data := datv, gas := gas, gasPrice := gasPrice,
         value := none }

/-- Building the main transaction (lines 265-273): like the approval
build but also converts `value` with `BigInt`. -/
def buildMainTx (v : JsValue) : Option BuiltTx := do
  let tov ← (getProp v "to").toOption
  let datv ← (getProp v "data").toOption
  let valv ← (getProp v "value").toOption
  let value ← jsBigIntValue? valv
  let gasv ← (getProp v "gas").toOption
  let gas ← jsBigIntValue? gasv
  let gpv ← (getProp v "gasPrice").toOption
  let gasPrice ← jsBigIntValue? gpv
  pure { «to» := tov, data := datv, gas := gas, gasPrice := gasPrice,
         value := some value }

/-- Calls made to the external collaborators, in order. -/
inductive ExecEvent where
  | switchCalled
  | approveSubmitted
  | mainSubmitted
deriving DecidableEq

/-- Terminal outcome of one execution attempt.  Failure constructors are
tagged by the step whose `await`/build threw (the single `catch` at lines
282-285 reports whichever error reached it); a `none` message means the
throw happened while building the transaction rather than in the
collaborator call. -/
inductive ExecResult where
  | noDataOrWalletNotConnected
  | chainSwitchFailed (msg : String)
  | approvalFailed (msg : Option String)
  | mainTxFailed (msg : Option String)
  | confirmed (mainHash : String)
deriving DecidableEq

/-- Outcomes of the external collaborators: `useSwitchActiveWalletChain`
and the two `sendAndConfirmTransaction` calls.  `Except.ok h` for a
submission is an on-chain confirmation carrying transaction hash `h`. -/
structure ExecDeps where
  switchOutcome : Except String Unit
  approveOutcome : Except String String
  mainOutcome : Except String String

/-- The tail of `executeTransactions` from line 262: build and submit the
main transaction. -/
def mainPhase (d : Normalized) (ev : List ExecEvent) (deps : ExecDeps) :
    List ExecEvent × ExecResult :=
  match buildMainTx d.tx with
  | none => (ev, .mainTxFailed none)
  | some _ =>
      match deps.mainOutcome with
      | .error m => (ev ++ [.mainSubmitted], .mainTxFailed (some m))
      | .ok h => (ev ++ [.mainSubmitted], .confirmed h)

/-- Embedding of `executeTransactions` (lines 225-288).  The early guard
`if (!parsedData || !account)` sets one combined error and returns without
touching any collaborator; then the chain switch is awaited, then the
approval (when `parsedData.approveTx` is truthy), then the main
transaction, each aborting the rest on a throw. -/
def executeTransactions (parsedData : Option Normalized)
    (account : Option Account) (deps : ExecDeps) :
    List ExecEvent × ExecResult :=
  match parsedData, account with
  | some d, some _ =>
      match deps.switchOutcome with
      | .error m => ([.switchCalled], .chainSwitchFailed m)
      | .ok _ =>
          if d.approveTx.truthy then
            match buildApproveTx d.approveTx with
            | none => ([.switchCalled], .approvalFailed none)
            | some _ =>
                match deps.approveOutcome with
                | .error m =>
                    ([.switchCalled, .approveSubmitted],
                     .approvalFailed (some m))
                | .ok _ =>
                    mainPhase d [.switchCalled, .approveSubmitted] deps
          else
            mainPhase d [.switchCalled] deps
  | _, _ => ([], .noDataOrWalletNotConnected)

/-! ### The amount formatter -/

/-- `String.prototype.padStart(n, '0')`. -/
def padStartZeros (s : String) (n : Nat) : String :=
  if n ≤ s.data.length then s
  else String.mk (List.replicate (n - s.data.length) '0') ++ s

/-- `replace(/0+$/, '')`: strip every trailing `'0'`. -/
def stripTrailingZeros (s : String) : String :=
  String.mk ((s.data.reverse.dropWhile (fun c => c = '0')).reverse)

/-- Number of halvings needed to bring `n` below `2 ^ 53`; the fuel `1100`
exceeds the bit length of every double-precision-representable magnitude. -/
def shiftFor : Nat → Nat → Nat
  | 0, _ => 0
  | f + 1, n => if n < 2 ^ 53 then 0 else shiftFor f (n / 2) + 1

/-- Round a natural number to the nearest IEEE-754 binary64 value
(53 significant bits, ties to even) — exact for inputs below `2 ^ 53`. -/
def roundSig53 (n : Nat) : Nat :=
  let k := shiftFor 1100 n
  if k = 0 then n
  else
    let q := n / 2 ^ k
    let r := n % 2 ^ k
    let half := 2 ^ (k - 1)
    let q' := if half < r || (r = half && q % 2 = 1) then q + 1 else q
    q' * 2 ^ k

/-- The value of the JS *number* expression `10 ** decimals` — a binary64
double (modelled as the correctly rounded power, which is what major
engines produce here).  `none` models overflow to `Infinity`, on which the
subsequent `BigInt` conversion throws: `10 ^ 308` is below the binary64
maximum of about `1.798e308` and `10 ^ 309` is above it. -/
def jsPow10Number (d : Nat) : Option Nat :=
  if d ≤ 308 then some (roundSig53 (10 ^ d)) else none

/-- Embedding of `formatAmount` (lines 290-303).  `num = BigInt(amount)`;
the divisor is `BigInt(10 ** decimals)` — the float-valued power, not the
exact one; `/` and `%` on `BigInt` truncate toward zero.  `none` models a
throw (unparseable `amount`, or `Infinity` reaching `BigInt`). -/
def formatAmount (amount : String) (decimals : Nat) : Option String := do
  let num ← jsBigIntOfString amount
  let divisor ← jsPow10Number decimals
  let whole := num.tdiv (divisor : Int)
  let fraction := num.tmod (divisor : Int)
  if fraction = 0 then
    pure (intDecimal whole)
  else
    let fractionStr := padStartZeros (intDecimal fraction) decimals
    let trimmedFraction := stripTrailingZeros fractionStr
    pure (if trimmedFraction ≠ "" then
            intDecimal whole ++ "." ++ trimmedFraction
          else intDecimal whole)

/-- Modelled from the spec (section 4.2), for comparison with the code:
the reference algorithm on a non-negative amount with exact big-integer
arithmetic — `whole = amount / 10 ^ decimals`, `fraction = amount % 10 ^
decimals`, fraction left-padded to `decimals` digits, trailing zeros
stripped. -/
def formatAmountSpec (amount : Nat) (decimals : Nat) : String :=
  let whole := amount / 10 ^ decimals
  let fraction := amount % 10 ^ decimals
  if fraction = 0 then natDecimal whole
  else
    let fractionStr := padStartZeros (natDecimal fraction) decimals
    let trimmedFraction := stripTrailingZeros fractionStr
    if trimmedFraction ≠ "" then
      natDecimal whole ++ "." ++ trimmedFraction
    else natDecimal whole

/-! ### Concrete sample inputs used by witnesses and counterexamples -/

/-- A concrete Format B source asset. -/
def sampleFromAsset : AssetB :=
  { name := "USD Coin", currency_code := "USDC",
    address := "0x8335", decimals := 6 }

/-- A second concrete Format B source asset. -/
def sampleToAsset : AssetB :=
  { name := "Ether", currency_code := "ETH",
    address := "0x0000", decimals := 18 }

/-- A concrete Format B transaction sub-object. -/
def sampleTxB : TxB :=
  { data := "0xdeadbeef", gas := "210000", gas_price := "1000000000",
    «from» := "0xfrom", «to» := "0xto", value := some "1" }

/-- A concrete Format B approval sub-object. -/
def sampleApproveB : ApproveTxB :=
  { data := "0x095ea7b3", gas := "60000", gas_price := "1000000000",
    «from» := "0xfrom", «to» := "0xtoken" }

/-- A concrete Format B quote with the given `chain_id` string. -/
def sampleQuoteB (cid : String) : QuoteB :=
  { from_asset := sampleFromAsset, to_asset := sampleToAsset,
    from_amount := "5000000", to_amount := "1500000000000000000",
    chain_id := cid }

/-- A fully populated Format B input with a numeric chain id. -/
def sampleB : FormatB :=
  { tx := sampleTxB, quote := sampleQuoteB "8453",
    approve_tx := some sampleApproveB, fee := none }

/-- A Format B input whose `chain_id` has no digits at all. -/
def sampleBBadChain : FormatB :=
  { tx := sampleTxB, quote := sampleQuoteB "abc",
    approve_tx := none, fee := none }

/-- A Format B input whose `tx.value` is present but is the empty string. -/
def sampleBEmptyValue : FormatB :=
  { tx := { sampleTxB with value := some "" }, quote := sampleQuoteB "8453",
    approve_tx := none, fee := none }

/-- A concrete normalized record whose `approveTx` is present and
buildable. -/
def sampleNormalized : Normalized :=
  { tx := .vObj [("data", .vStr "0xmain"), ("gas", .vStr "210000"),
      ("gasPrice", .vStr "1000000000"), ("from", .vStr "0xfrom"),
      ("to", .vStr "0xto"), ("value", .vStr "1")],
    quote := .vObj [],
    approveTx := .vObj [("data", .vStr "0x095ea7b3"), ("gas", .vStr "60000"),
      ("gasPrice", .vStr "1000000000"), ("from", .vStr "0xfrom"),
      ("to", .vStr "0xtoken")],
    chainId := .vNum 8453,
    warning := .vUndefined }

/-- A connected wallet account. -/
def sampleAccount : Account := { address := "0xabcd" }

/-- Collaborator outcomes where the chain switch succeeds and the approval
submission is rejected. -/
def sampleDepsApproveFail : ExecDeps :=
  { switchOutcome := .ok (), approveOutcome := .error "user rejected",
    mainOutcome := .ok "0xmainhash" }

/-- The built approval transaction for `sampleNormalized`. -/
def sampleBuiltApprove : BuiltTx :=
  { «to» := .vStr "0xtoken", data := .vStr "0x095ea7b3",
    gas := 60000, gasPrice := 1000000000, value := none }

/-- A component state holding a previously parsed record and stale
status/error strings. -/
def sampleState : UiState :=
  { jsonInput := "not json", parsedData := some sampleNormalized,
    isExecuting := false, txStatus := "old status", error := "old error" }

end TxSubmitter

namespace TxSubmitter

/-! ## Helper lemmas -/

/-- Evaluation of `normalizeTransactionData` on every encoded Format B
input: the Format B branch is taken and produces the field-by-field
renamed record. -/
theorem normalizeTransactionData_encodeB (b : FormatB) :
    normalizeTransactionData (encodeB b) = .ok (formatBNormalized b) := by
  obtain ⟨⟨td, tg, tgp, tf, tt, tv⟩, ⟨fa, ta, famt, tamt, cid⟩, atx, fee⟩ := b
  cases tv <;> cases atx <;> cases fee <;> rfl

/-- String coercion of a string value is the identity. -/
theorem jsToString_vStr (s : String) : jsToString (.vStr s) = s := rfl

/-- A key whose lookup yields `null` is present in the object. -/
theorem hasKey_of_lookupField_vNull (fs : List (String × JsValue)) (k : String)
    (h : JsValue.lookupField fs k = .vNull) :
    (JsValue.vObj fs).hasKey k = true := by
  induction fs with
  | nil => simp [JsValue.lookupField] at h
  | cons p rest ih =>
      obtain ⟨k', v⟩ := p
      by_cases hk : k' = k
      · simp [JsValue.hasKey, hk]
      · rw [JsValue.lookupField] at h
        simp only [hk, if_false] at h
        have := ih h
        simp [JsValue.hasKey] at this ⊢
        exact Or.inr this

/-! ## Claims -/

/-- Claim C1 (code bug evaluation): at `amount = 10 ^ 23` and
`decimals = 23` the code divides by `BigInt(10 ** 23) =
99999999999999991611392` — the binary64 rounding of `10 ^ 23` — and
returns `"1.00000000000000008388608"`, while the exact reference
algorithm of the specification returns `"1"`. -/
theorem formatAmount_float_pow_bug :
    formatAmount "100000000000000000000000" 23 =
      some "1.00000000000000008388608" ∧
    formatAmountSpec (10 ^ 23) 23 = "1" ∧
    jsPow10Number 23 = some 99999999999999991611392 :=
  ⟨rfl, rfl, rfl⟩

/-- For every `decimals` below 23 the binary64 value of `10 ** decimals`
is exact, so the code agrees with the specification's exact algorithm on
that range (amounts of any size, including 256-bit ones). -/
theorem formatAmount_eq_spec_below23 (s : String) (a : Nat) (d : Nat)
    (hs : jsBigIntOfString s = some (Int.ofNat a)) (hd : d < 23) :
    formatAmount s d = some (formatAmountSpec a d) := by
  have key : ∀ e : Nat, e < 23 → roundSig53 (10 ^ e) = 10 ^ e := by decide
  have hp : jsPow10Number d = some (10 ^ d) := by
    unfold jsPow10Number
    rw [if_pos (by omega : d ≤ 308), key d hd]
  have hmain : formatAmount s d =
      (if Int.ofNat (a % 10 ^ d) = 0 then some (natDecimal (a / 10 ^ d))
       else some
         (if stripTrailingZeros (padStartZeros (natDecimal (a % 10 ^ d)) d)
              ≠ "" then
            natDecimal (a / 10 ^ d) ++ "." ++
              stripTrailingZeros (padStartZeros (natDecimal (a % 10 ^ d)) d)
          else natDecimal (a / 10 ^ d))) := by
    unfold formatAmount
    rw [hs, hp]
    rfl
  rw [hmain]
  simp only [formatAmountSpec]
  by_cases hz : a % 10 ^ d = 0
  · rw [if_pos (show Int.ofNat (a % 10 ^ d) = 0 by rw [hz]; rfl), if_pos hz]
  · rw [if_neg (show ¬Int.ofNat (a % 10 ^ d) = 0 from
        fun hc => hz (Int.ofNat.inj hc)), if_neg hz]

/-- Claim C2 (counterexample): on a Format B input whose `chain_id` is
`"abc"`, normalization itself succeeds with a `NaN` chain id, and the
pipeline then fails with the missing-required-fields error — which is not
the specification's distinct `InvalidChainId` error. -/
theorem normalizeB_badChain_counterexample :
    (normalizeTransactionData (encodeB sampleBBadChain)).map Normalized.chainId
      = .ok .vNaN ∧
    parseNormalizePipeline (encodeB sampleBBadChain)
      = .error .missingRequiredFields ∧
    ThrownError.missingRequiredFields ≠ ThrownError.invalidChainId :=
  ⟨rfl, rfl, by decide⟩

/-- Claim C2 (amended): for every Format B input whose `quote.chain_id`
has no parseable digit prefix (`parseInt` yields `NaN`), normalization
succeeds with `chainId = NaN` and the subsequent required-field validation
fails with `MissingRequiredFields`; no distinct `InvalidChainId` error is
raised. -/
theorem normalizeB_unparseableChain (b : FormatB)
    (h : parseIntBase10 b.quote.chain_id = none) :
    (normalizeTransactionData (encodeB b)).map Normalized.chainId
      = .ok .vNaN ∧
    parseNormalizePipeline (encodeB b) = .error .missingRequiredFields := by
  have he := normalizeTransactionData_encodeB b
  constructor
  · rw [he]
    simp [Except.map, formatBNormalized, jsParseIntValue, jsToString_vStr, h]
  · simp [parseNormalizePipeline, he, formatBNormalized, jsParseIntValue,
      jsToString_vStr, h, JsValue.truthy, Bind.bind, Except.bind]

/-- Claim C2 amended, witness at `chain_id = "abc"`. -/
theorem normalizeB_unparseableChain_witness :
    (normalizeTransactionData (encodeB sampleBBadChain)).map Normalized.chainId
      = .ok .vNaN ∧
    parseNormalizePipeline (encodeB sampleBBadChain)
      = .error .missingRequiredFields :=
  normalizeB_unparseableChain sampleBBadChain rfl

/-- Claim C4: every input of Format A's shape normalizes to the record
whose `tx`, `quote`, `approveTx` and `chainId` are the `result.*` values
verbatim, with the top-level `warning` carried through unchanged
(`undefined` when absent, exactly as the constructed object reads). -/
theorem normalizeA_verbatim (a : FormatA) :
    normalizeTransactionData (encodeA a) = .ok
      { tx := a.tx, quote := a.quote,
        approveTx := a.approveTx.getD .vUndefined,
        chainId := a.chainId,
        warning := a.warning.getD .vUndefined } := by
  obtain ⟨tx, quote, atx, cid, w⟩ := a
  cases atx <;> cases w <;> rfl

/-- Claim C5: every input of Format B's shape whose `chain_id` parses is
normalized by renaming each snake_case field to its camelCase counterpart
(`gas_price → gasPrice`, `from_asset → fromAsset`, `to_asset → toAsset`,
`currency_code → currencyCode`, `from_amount → fromAmount`,
`to_amount → toAmount`, `approve_tx → approveTx`), copying `name`,
`address`, `decimals`, `data`, `gas`, `from`, `to` verbatim, producing
`approveTx` exactly when `approve_tx` is present, setting `chainId` to the
parsed integer, and dropping only `fee`. -/
theorem normalizeB_renames (b : FormatB) (n : Int)
    (h : parseIntBase10 b.quote.chain_id = some n) :
    normalizeTransactionData (encodeB b) = .ok
      { tx := .vObj [("data", .vStr b.tx.data), ("gas", .vStr b.tx.gas),
          ("gasPrice", .vStr b.tx.gas_price), ("from", .vStr b.tx.«from»),
          ("to", .vStr b.tx.«to»),
          ("value", jsOr (encodeOptStr b.tx.value) (.vStr "0"))],
        quote := .vObj [
          ("fromAsset", .vObj [("name", .vStr b.quote.from_asset.name),
            ("currencyCode", .vStr b.quote.from_asset.currency_code),
            ("address", .vStr b.quote.from_asset.address),
            ("decimals", .vNum b.quote.from_asset.decimals)]),
          ("toAsset", .vObj [("name", .vStr b.quote.to_asset.name),
            ("currencyCode", .vStr b.quote.to_asset.currency_code),
            ("address", .vStr b.quote.to_asset.address),
            ("decimals", .vNum b.quote.to_asset.decimals)]),
          ("fromAmount", .vStr b.quote.from_amount),
          ("toAmount", .vStr b.quote.to_amount)],
        approveTx :=
          match b.approve_tx with
          | some t => .vObj [("data", .vStr t.data), ("gas", .vStr t.gas),
              ("gasPrice", .vStr t.gas_price), ("from", .vStr t.«from»),
              ("to", .vStr t.«to»)]
          | none => .vUndefined,
        chainId := .vNum n,
        warning := .vUndefined } := by
  rw [normalizeTransactionData_encodeB]
  simp [formatBNormalized, jsParseIntValue, jsToString_vStr, h]

/-- Claim C5, witness at a fully populated Format B input with
`chain_id = "8453"`. -/
theorem normalizeB_renames_witness :
    normalizeTransactionData (encodeB sampleB) = .ok
      { tx := .vObj [("data", .vStr "0xdeadbeef"), ("gas", .vStr "210000"),
          ("gasPrice", .vStr "1000000000"), ("from", .vStr "0xfrom"),
          ("to", .vStr "0xto"), ("value", .vStr "1")],
        quote := .vObj [
          ("fromAsset", .vObj [("name", .vStr "USD Coin"),
            ("currencyCode", .vStr "USDC"), ("address", .vStr "0x8335"),
            ("decimals", .vNum 6)]),
          ("toAsset", .vObj [("name", .vStr "Ether"),
            ("currencyCode", .vStr "ETH"), ("address", .vStr "0x0000"),
            ("decimals", .vNum 18)]),
          ("fromAmount", .vStr "5000000"),
          ("toAmount", .vStr "1500000000000000000")],
        approveTx := .vObj [("data", .vStr "0x095ea7b3"),
          ("gas", .vStr "60000"), ("gasPrice", .vStr "1000000000"),
          ("from", .vStr "0xfrom"), ("to", .vStr "0xtoken")],
        chainId := .vNum 8453,
        warning := .vUndefined } :=
  normalizeB_renames sampleB 8453 rfl

/-- Claim C6 (counterexample): a Format B input whose `tx.value` is
present but equal to `""` is normalized to `value = "0"`, not copied
unchanged. -/
theorem normalizeB_emptyValue_counterexample :
    sampleBEmptyValue.tx.value = some "" ∧
    (normalizeTransactionData (encodeB sampleBEmptyValue)).map
        (fun d => fieldOf d.tx "value") = .ok (.vStr "0") ∧
    JsValue.vStr "0" ≠ JsValue.vStr "" :=
  ⟨rfl, rfl, by intro h; injection h with h'; exact absurd h' (by decide)⟩

/-- Claim C6 (amended): for every Format B input, the normalized
`tx.value` is `"0"` when the source `value` is omitted or is the falsy
empty string, and is the source string unchanged otherwise. -/
theorem normalizeB_valueDefault (b : FormatB) :
    (normalizeTransactionData (encodeB b)).map (fun d => fieldOf d.tx "value")
      = .ok (.vStr (valueB b.tx.value)) := by
  obtain ⟨⟨td, tg, tgp, tf, tt, tv⟩, q, atx, fee⟩ := b
  rw [normalizeTransactionData_encodeB]
  cases tv with
  | none => rfl
  | some s =>
      by_cases hs : s = ""
      · subst hs; rfl
      · simp [Except.map, formatBNormalized, fieldOf, getProp,
          JsValue.lookupField, encodeOptStr, jsOr, JsValue.truthy, valueB, hs]

/-- Claim C7: every parsed value matching neither detection rule — not an
object-like value with a `result` key, nor one with both `tx` and `quote`
keys — makes `normalizeTransactionData` throw the unrecognized-format
error and produce no record. -/
theorem normalize_unrecognizedFormat (v : JsValue)
    (h1 : (v.isObjectLike && v.hasKey "result") = false)
    (h2 : (v.isObjectLike && v.hasKey "tx" && v.hasKey "quote") = false) :
    normalizeTransactionData v = .error .unrecognizedFormat := by
  simp [normalizeTransactionData, h1, h2]

/-- Claim C7, witness at `{"foo": 1}`. -/
theorem normalize_unrecognizedFormat_witness :
    normalizeTransactionData (.vObj [("foo", .vNum 1)])
      = .error .unrecognizedFormat :=
  normalize_unrecognizedFormat (.vObj [("foo", .vNum 1)]) rfl rfl

/-- Claim C8: with no connected wallet account, `executeTransactions`
returns the immediate precondition failure (the code's single combined
"no parsed data or wallet not connected" error) and performs zero
collaborator calls — regardless of the parsed record and of what the
collaborators would have answered. -/
theorem executeTransactions_noWallet (pd : Option Normalized)
    (deps : ExecDeps) :
    executeTransactions pd none deps = ([], .noDataOrWalletNotConnected) := by
  cases pd <;> rfl

/-- Claim C9: every failing parse attempt (malformed JSON, unrecognized
format, type error, or missing required fields) clears the previously
parsed record, sets the error message, and leaves the raw input — and all
other state — untouched. -/
theorem parseJsonData_failure_frame (st : UiState)
    (pr : Except String JsValue) (h : parseAttemptFails pr = true) :
    (parseJsonData st pr).parsedData = none ∧
    (∃ m, (parseJsonData st pr).error = "Failed to parse JSON: " ++ m) ∧
    (parseJsonData st pr).jsonInput = st.jsonInput ∧
    (parseJsonData st pr).isExecuting = st.isExecuting ∧
    (parseJsonData st pr).txStatus = st.txStatus := by
  cases pr with
  | error m => exact ⟨rfl, ⟨m, rfl⟩, rfl, rfl, rfl⟩
  | ok raw =>
      cases hp : parseNormalizePipeline raw with
      | error e =>
          refine ⟨?_, ⟨errMessage e, ?_⟩, ?_, ?_, ?_⟩ <;>
            simp [parseJsonData, hp]
      | ok d => simp [parseAttemptFails, hp] at h

/-- Claim C9, witness: a malformed-JSON attempt over a state holding a
previously parsed record. -/
theorem parseJsonData_failure_frame_witness :
    (parseJsonData sampleState (.error "Unexpected token")).parsedData = none ∧
    (∃ m, (parseJsonData sampleState (.error "Unexpected token")).error
      = "Failed to parse JSON: " ++ m) ∧
    (parseJsonData sampleState (.error "Unexpected token")).jsonInput
      = sampleState.jsonInput ∧
    (parseJsonData sampleState (.error "Unexpected token")).isExecuting
      = sampleState.isExecuting ∧
    (parseJsonData sampleState (.error "Unexpected token")).txStatus
      = sampleState.txStatus :=
  parseJsonData_failure_frame sampleState (.error "Unexpected token") rfl

/-- Claim C10 (counterexample): on `{"result": 5}` the Format A branch is
taken and every extraction reads `undefined` without any type error —
normalization succeeds, and the failure only appears later as
`MissingRequiredFields`, contradicting the claim that a type error is
raised for every non-object `result`. -/
theorem normalize_resultPrimitive_counterexample :
    normalizeTransactionData (.vObj [("result", .vNum 5)]) = .ok
      { tx := .vUndefined, quote := .vUndefined, approveTx := .vUndefined,
        chainId := .vUndefined, warning := .vUndefined } ∧
    parseNormalizePipeline (.vObj [("result", .vNum 5)])
      = .error .missingRequiredFields :=
  ⟨rfl, rfl⟩

/-- Claim C10 (amended): format detection tests only the presence of the
`result` key, so the Format A branch is taken whenever it is present; when
its value is `null`, reading `result.tx` throws a `TypeError` (the Format
A extraction's error branch is reachable), while non-null primitive
`result` values read `undefined` fields and fail later as
`MissingRequiredFields`. -/
theorem normalize_resultNull_typeError (fs : List (String × JsValue))
    (h : JsValue.lookupField fs "result" = .vNull) :
    normalizeTransactionData (.vObj fs) = .error .typeError := by
  have hk := hasKey_of_lookupField_vNull fs "result" h
  simp [normalizeTransactionData, JsValue.isObjectLike, hk, getProp, h,
    Bind.bind, Except.bind]

/-- Claim C10 amended, witness at `{"result": null}`. -/
theorem normalize_resultNull_typeError_witness :
    normalizeTransactionData (.vObj [("result", .vNull)])
      = .error .typeError :=
  normalize_resultNull_typeError [("result", .vNull)] rfl

/-- Claim C3: whenever `record.approveTx` is present (truthy), the main
transaction can only ever be submitted after the approval was submitted
and its confirmation returned; and if the approval submission fails, the
attempt ends at the approval-failed status with the main transaction never
submitted. -/
theorem executeTransactions_approvalFirst (d : Normalized) (acct : Account)
    (deps : ExecDeps) (hA : d.approveTx.truthy = true) :
    (ExecEvent.mainSubmitted ∈ (executeTransactions (some d) (some acct) deps).1 →
      (executeTransactions (some d) (some acct) deps).1 =
        [.switchCalled, .approveSubmitted, .mainSubmitted] ∧
      ∃ hash, deps.approveOutcome = .ok hash) ∧
    (∀ m, deps.switchOutcome = .ok () →
      (∃ bt, buildApproveTx d.approveTx = some bt) →
      deps.approveOutcome = .error m →
      (executeTransactions (some d) (some acct) deps).2
        = .approvalFailed (some m) ∧
      ExecEvent.mainSubmitted ∉ (executeTransactions (some d) (some acct) deps).1) := by
  obtain ⟨sw, ao, mo⟩ := deps
  cases sw with
  | error m0 =>
      constructor
      · intro hm
        simp [executeTransactions] at hm
      · intro m hsw
        exact absurd hsw (by simp)
  | ok u =>
      cases u
      cases hb : buildApproveTx d.approveTx with
      | none =>
          constructor
          · intro hm
            simp [executeTransactions, hA, hb] at hm
          · rintro m - ⟨bt, hbt⟩ -
            exact absurd hbt (by simp)
      | some bt =>
          cases ao with
          | error m0 =>
              constructor
              · intro hm
                simp [executeTransactions, hA, hb] at hm
              · rintro m - - hao
                injection hao with hm'
                subst hm'
                refine ⟨by simp [executeTransactions, hA, hb], ?_⟩
                simp [executeTransactions, hA, hb]
          | ok hash =>
              constructor
              · intro hm
                refine ⟨?_, hash, rfl⟩
                cases hbm : buildMainTx d.tx with
                | none =>
                    simp [executeTransactions, hA, hb, mainPhase, hbm] at hm
                | some bm =>
                    cases mo <;>
                      simp [executeTransactions, hA, hb, mainPhase, hbm]
              · rintro m - - hao
                exact absurd hao (by simp)

/-- Claim C3, witness: chain switch succeeds, approval submission is
rejected — the attempt ends at the approval failure and the main
transaction is never submitted. -/
theorem executeTransactions_approvalFirst_witness :
    (executeTransactions (some sampleNormalized) (some sampleAccount)
        sampleDepsApproveFail).2 = .approvalFailed (some "user rejected") ∧
    ExecEvent.mainSubmitted ∉ (executeTransactions (some sampleNormalized)
        (some sampleAccount) sampleDepsApproveFail).1 :=
  (executeTransactions_approvalFirst sampleNormalized sampleAccount
      sampleDepsApproveFail rfl).2 "user rejected" rfl
    ⟨sampleBuiltApprove, rfl⟩ rfl

end TxSubmitter
